import Mathlib

/-!
Shallow embedding of the background task scheduler
(src/backend/app/services/task_queue.py) and the WebSocket notification hub
(src/backend/app/services/websocket_service.py) of the chatlog-hxb backend.

Modelling conventions:
* Python dicts become association lists (String keys); dict assignment is
  first-occurrence replacement, deletion removes every pair with the key
  (Python dict keys are unique, so this coincides on well-formed states).
* datetimes are integer second timestamps; timedelta(seconds = d) is + d.
* A task callable is modelled as the list of outcomes of its successive
  invocations (success with payload and duration, raised exception with
  message and duration, or a timeout of the asyncio.wait_for race).
* The asyncio worker loop of TaskQueue._worker_main is modelled one
  iteration at a time as a function of the state and the current time;
  _execute_task awaits the work item inline, so one loop iteration that
  dispatches runs the attempt to completion, exactly like the source.
-/

/-- Association-list lookup: first pair whose key matches (Python dict get). -/
def alist_lookup {α : Type} : List (String × α) → String → Option α
  | [], _ => none
  | (k, v) :: rest, key => if k = key then some v else alist_lookup rest key

/-- Association-list store: replaces the first pair with the key, else appends
(Python dict item assignment). -/
def alist_insert {α : Type} : List (String × α) → String → α → List (String × α)
  | [], key, v => [(key, v)]
  | (k, w) :: rest, key, v =>
      if k = key then (key, v) :: rest else (k, w) :: alist_insert rest key v

/-- Association-list delete: removes every pair with the key (Python dict pop;
keys are unique in a dict so at most one pair is removed on real states). -/
def alist_erase {α : Type} (l : List (String × α)) (key : String) :
    List (String × α) :=
  l.filter (fun p => p.1 ≠ key)

/-- TaskStatus enum of task_queue.py. -/
inductive TaskStatus where
  | pending
  | running
  | completed
  | failed
  | cancelled
  | retrying
deriving DecidableEq, Repr

/-- TaskPriority enum of task_queue.py: LOW=3, NORMAL=2, HIGH=1, URGENT=0. -/
inductive TaskPriority where
  | low
  | normal
  | high
  | urgent
deriving DecidableEq, Repr

/-- The numeric value of a TaskPriority member (its .value in Python). -/
def TaskPriority.value : TaskPriority → Nat
  | .low => 3
  | .normal => 2
  | .high => 1
  | .urgent => 0

/-- One invocation of a task callable: it returns a payload after some
duration, raises after some duration, or loses the asyncio.wait_for race. -/
inductive ExecOutcome where
  | success (payload : String) (dur : Int)
  | failure (errMsg : String) (dur : Int)
  | timedOut
deriving DecidableEq, Repr

/-- TaskResult dataclass of task_queue.py. -/
structure TaskResult where
  task_id : String
  status : TaskStatus
  result : Option String := none
  error : Option String := none
  start_time : Option Int := none
  end_time : Option Int := none
  execution_time : Option Int := none
  retry_count : Nat := 0
deriving DecidableEq, Repr

/-- BackgroundTask dataclass of task_queue.py. The callable together with its
bound args/kwargs is modelled by `outcomes`, the results of its successive
invocations (head = next invocation). -/
structure BackgroundTask where
  task_id : String
  task_type : String
  priority : TaskPriority
  outcomes : List ExecOutcome
  max_retries : Nat := 3
  timeout : Int := 300
  created_at : Int
  scheduled_for : Option Int := none
deriving DecidableEq, Repr

/-- BackgroundTask.__lt__: priority value first, creation time as tie-break. -/
def pq_lt (a b : BackgroundTask) : Bool :=
  if a.priority.value ≠ b.priority.value then
    decide (a.priority.value < b.priority.value)
  else
    decide (a.created_at < b.created_at)

/-- The minimum of `t :: ts` under `pq_lt` (what heapq surfaces at the head
of the PriorityQueue). -/
def pq_min : BackgroundTask → List BackgroundTask → BackgroundTask
  | t, [] => t
  | t, x :: xs => pq_min (if pq_lt x t then x else t) xs

/-- PriorityQueue.get on a non-empty queue: removes and returns a minimal
element under `pq_lt` (heap order among incomparable elements is arbitrary;
the claims only depend on minimality). -/
def pq_pop (l : List BackgroundTask) : Option (BackgroundTask × List BackgroundTask) :=
  match l with
  | [] => none
  | t :: ts =>
      let m := pq_min t ts
      some (m, l.erase m)

/-- The state of a TaskQueue instance: pending PriorityQueue (as the multiset
of stored tasks), running_tasks, task_results, and the stats dict fields. -/
structure TaskQueue where
  max_workers : Nat := 5
  max_queue_size : Nat := 1000
  pending_queue : List BackgroundTask := []
  running_tasks : List (String × BackgroundTask) := []
  task_results : List (String × TaskResult) := []
  tasks_submitted : Nat := 0
  tasks_completed : Nat := 0
  tasks_failed : Nat := 0
  tasks_retried : Nat := 0
  total_execution_time : Int := 0
deriving DecidableEq, Repr

/-- A freshly constructed TaskQueue (stats all zero, everything empty). -/
def TaskQueue.init (max_workers max_queue_size : Nat) : TaskQueue :=
  { max_workers := max_workers, max_queue_size := max_queue_size }

/-- Queue.full(): 0 < maxsize ≤ qsize. -/
def TaskQueue.queue_full (q : TaskQueue) : Bool :=
  decide (0 < q.max_queue_size) && decide (q.max_queue_size ≤ q.pending_queue.length)

/-- Error raised by submit_task when the pending queue is at capacity
(raise Exception with message Task queue is full). -/
inductive QueueError where
  | queueFull
deriving DecidableEq, Repr

/-- TaskQueue.submit_task. The uuid suffix of the generated task id is passed
in as `uid` and the current clock as `now` (datetime.utcnow() for
BackgroundTask.created_at). Returns the state after the call together with
the raised error or the returned task id; the full-queue check precedes every
mutation, so the error branch returns the state unchanged. -/
def TaskQueue.submit_task (q : TaskQueue) (task_type : String)
    (outcomes : List ExecOutcome) (priority : TaskPriority)
    (max_retries : Nat) (timeout : Int) (scheduled_for : Option Int)
    (now : Int) (uid : String) : TaskQueue × Except QueueError String :=
  if q.queue_full then
    (q, .error .queueFull)
  else
    let task_id := task_type ++ "_" ++ uid
    let task : BackgroundTask :=
      { task_id := task_id, task_type := task_type, priority := priority,
        outcomes := outcomes, max_retries := max_retries, timeout := timeout,
        created_at := now, scheduled_for := scheduled_for }
    let q1 := { q with
      pending_queue := q.pending_queue ++ [task],
      tasks_submitted := q.tasks_submitted + 1 }
    let q2 := { q1 with
      task_results := alist_insert q1.task_results task_id
        { task_id := task_id, status := TaskStatus.pending } }
    (q2, .ok task_id)

/-- TaskQueue.get_task_status: task_results.get(task_id). -/
def TaskQueue.get_task_status (q : TaskQueue) (task_id : String) :
    Option TaskResult :=
  alist_lookup q.task_results task_id

/-- The dict returned by TaskQueue.get_queue_stats; avg_execution_time is the
float division total_execution_time / max(tasks_completed, 1), modelled as an
exact rational. -/
structure QueueStatsView where
  queue_size : Nat
  running_tasks : Nat
  total_results : Nat
  tasks_submitted : Nat
  tasks_completed : Nat
  tasks_failed : Nat
  tasks_retried : Nat
  total_execution_time : Int
  avg_execution_time : Rat
deriving DecidableEq, Repr

/-- TaskQueue.get_queue_stats. -/
def TaskQueue.get_queue_stats (q : TaskQueue) : QueueStatsView :=
  { queue_size := q.pending_queue.length,
    running_tasks := q.running_tasks.length,
    total_results := q.task_results.length,
    tasks_submitted := q.tasks_submitted,
    tasks_completed := q.tasks_completed,
    tasks_failed := q.tasks_failed,
    tasks_retried := q.tasks_retried,
    total_execution_time := q.total_execution_time,
    avg_execution_time :=
      (q.total_execution_time : Rat) / (max q.tasks_completed 1 : Nat) }

/-- TaskQueue.cancel_task: returns False for a task in running_tasks, marks
the stored TaskResult CANCELLED and returns True whenever one exists,
otherwise returns False. -/
def TaskQueue.cancel_task (q : TaskQueue) (task_id : String) :
    TaskQueue × Bool :=
  if (alist_lookup q.running_tasks task_id).isSome then
    (q, false)
  else
    match alist_lookup q.task_results task_id with
    | some tr =>
        let tr2 := { tr with status := TaskStatus.cancelled }
        ({ q with task_results := alist_insert q.task_results task_id tr2 },
         true)
    | none => (q, false)

/-- TaskQueue._retry_task, entered from the failure and timeout handlers of
_execute_task with `now` the clock at that point. Fetches the stored
TaskResult (always present: _execute_task just stored it; a missing entry
would raise KeyError in the source and is modelled as a no-op), increments
its retry_count, marks it RETRYING, computes the capped exponential delay
from the incremented count, and requeues the task with max_retries
decremented and scheduled_for pushed out by the delay. -/
def TaskQueue.retry_task (q : TaskQueue) (task : BackgroundTask) (now : Int) :
    TaskQueue :=
  if task.max_retries > 0 then
    match alist_lookup q.task_results task.task_id with
    | some tr =>
        let tr2 := { tr with
          retry_count := tr.retry_count + 1,
          status := TaskStatus.retrying }
        let retry_delay : Int := min (2 ^ tr2.retry_count) 60
        let task2 := { task with
          max_retries := task.max_retries - 1,
          scheduled_for := some (now + retry_delay) }
        { q with
          task_results := alist_insert q.task_results task.task_id tr2,
          pending_queue := q.pending_queue ++ [task2],
          tasks_retried := q.tasks_retried + 1 }
    | none => q
  else q

/-- TaskQueue._execute_task at clock `now`: stores the task in running_tasks,
replaces the task id's stored TaskResult with a fresh RUNNING one (so any
previously recorded status and retry_count are discarded), awaits one
invocation of the callable, then records the outcome, updates the stats,
retries on failure or timeout, and finally removes the task from
running_tasks. Returns the state together with the clock when the attempt
ended. An exhausted outcome list stands for a callable whose further
invocations return None immediately (empty payload, zero duration). -/
def TaskQueue.execute_task (q : TaskQueue) (task : BackgroundTask)
    (now : Int) : TaskQueue × Int :=
  let tr0 : TaskResult :=
    { task_id := task.task_id, status := TaskStatus.running,
      start_time := some now }
  let q1 := { q with
    running_tasks := alist_insert q.running_tasks task.task_id task,
    task_results := alist_insert q.task_results task.task_id tr0 }
  let taskRest := { task with outcomes := task.outcomes.tail }
  match task.outcomes with
  | [] =>
      let endT := now + 0
      let tr := { tr0 with
        status := TaskStatus.completed, result := some "",
        end_time := some endT, execution_time := some 0 }
      let q2 := { q1 with
        task_results := alist_insert q1.task_results task.task_id tr,
        tasks_completed := q1.tasks_completed + 1,
        total_execution_time := q1.total_execution_time + 0 }
      ({ q2 with running_tasks := alist_erase q2.running_tasks task.task_id },
       endT)
  | .success payload dur :: _ =>
      let endT := now + dur
      let tr := { tr0 with
        status := TaskStatus.completed, result := some payload,
        end_time := some endT, execution_time := some dur }
      let q2 := { q1 with
        task_results := alist_insert q1.task_results task.task_id tr,
        tasks_completed := q1.tasks_completed + 1,
        total_execution_time := q1.total_execution_time + dur }
      ({ q2 with running_tasks := alist_erase q2.running_tasks task.task_id },
       endT)
  | .failure msg dur :: _ =>
      let endT := now + dur
      let tr := { tr0 with
        status := TaskStatus.failed, error := some msg,
        end_time := some endT }
      let q2 := { q1 with
        task_results := alist_insert q1.task_results task.task_id tr,
        tasks_failed := q1.tasks_failed + 1 }
      let q3 := q2.retry_task taskRest endT
      ({ q3 with running_tasks := alist_erase q3.running_tasks task.task_id },
       endT)
  | .timedOut :: _ =>
      let endT := now + task.timeout
      let tr := { tr0 with
        status := TaskStatus.failed,
        error := some ("Task timeout after " ++ toString task.timeout
          ++ " seconds"),
        end_time := some endT }
      let q2 := { q1 with
        task_results := alist_insert q1.task_results task.task_id tr,
        tasks_failed := q1.tasks_failed + 1 }
      let q3 := q2.retry_task taskRest endT
      ({ q3 with running_tasks := alist_erase q3.running_tasks task.task_id },
       endT)

/-- TaskQueue._cleanup_expired_results: drops results whose end_time is
before now minus one hour. -/
def TaskQueue.cleanup_expired_results (q : TaskQueue) (now : Int) :
    TaskQueue :=
  let cutoff := now - 3600
  { q with task_results := q.task_results.filter (fun p =>
      match p.2.end_time with
      | some e => decide (cutoff ≤ e)
      | none => true) }

/-- The eligibility test of the dispatch loop: the popped task is put back
when scheduled_for is set and still in the future. -/
def needs_wait (task : BackgroundTask) (now : Int) : Bool :=
  match task.scheduled_for with
  | some s => decide (now < s)
  | none => false

/-- The outcome of one iteration of _worker_main: the successor state and,
when _execute_task was entered (the callable invoked), the task it ran. -/
structure StepResult where
  state : TaskQueue
  dispatched : Option BackgroundTask
deriving DecidableEq, Repr

/-- One iteration of the _worker_main loop at clock `now`: with the queue
non-empty and capacity free, pops the minimal task; an ineligible task is
put back and the iteration ends (sleep 1, continue — no cleanup); otherwise
the task is executed and expired results are cleaned up afterwards. -/
def TaskQueue.worker_step (q : TaskQueue) (now : Int) : StepResult :=
  if q.pending_queue ≠ [] ∧ q.running_tasks.length < q.max_workers then
    match pq_pop q.pending_queue with
    | some (task, rest) =>
        if needs_wait task now then
          { state := { q with pending_queue := rest ++ [task] },
            dispatched := none }
        else
          let res := TaskQueue.execute_task { q with pending_queue := rest }
            task now
          { state := res.1.cleanup_expired_results res.2,
            dispatched := some task }
    | none =>
        { state := q.cleanup_expired_results now, dispatched := none }
  else
    { state := q.cleanup_expired_results now, dispatched := none }

/-- The per-connection record kept in WebSocketManager.connected_clients
(sets become duplicate-free lists). -/
structure WSClientInfo where
  session_id : String
  connected_at : Int
  subscribed_tasks : List String
  subscribed_rooms : List String
deriving DecidableEq, Repr

/-- The empty dict returned by connected_clients.pop(sid, \x7b\x7d): its
subscribed_tasks/subscribed_rooms default to the empty set. -/
def WSClientInfo.empty : WSClientInfo :=
  { session_id := "", connected_at := 0, subscribed_tasks := [],
    subscribed_rooms := [] }

/-- The state of the WebSocketManager: connection map, the two subscription
maps, heartbeat map and the stats counters the claims touch. -/
structure WSManager where
  connected_clients : List (String × WSClientInfo) := []
  task_subscribers : List (String × List String) := []
  room_subscribers : List (String × List String) := []
  client_heartbeats : List (String × Int) := []
  current_connections : Int := 0
  messages_sent : Nat := 0
deriving DecidableEq, Repr

/-- WebSocketManager._subscribe_task: setdefault the subscriber set for the
task id, add the session, mirror it into connected_clients when present. -/
def WSManager.subscribe_task (m : WSManager) (session_id task_id : String) :
    WSManager :=
  let subs := (alist_lookup m.task_subscribers task_id).getD []
  let subs2 := if session_id ∈ subs then subs else subs ++ [session_id]
  let m1 := { m with
    task_subscribers := alist_insert m.task_subscribers task_id subs2 }
  match alist_lookup m1.connected_clients session_id with
  | some info =>
      let st2 := if task_id ∈ info.subscribed_tasks then
        info.subscribed_tasks else info.subscribed_tasks ++ [task_id]
      let info2 := { info with subscribed_tasks := st2 }
      { m1 with connected_clients :=
          alist_insert m1.connected_clients session_id info2 }
  | none => m1

/-- The task_subscribers update of _unsubscribe_task: discard the session
from the key's set and delete the key when the set becomes empty. -/
def subs_discard (ts : List (String × List String)) (key s : String) :
    List (String × List String) :=
  match alist_lookup ts key with
  | some subs =>
      let subs2 := subs.filter (fun x => x ≠ s)
      if subs2.isEmpty then alist_erase ts key
      else alist_insert ts key subs2
  | none => ts

/-- WebSocketManager._unsubscribe_task: discard the session from the task's
subscriber set, delete the set when it becomes empty, and mirror the removal
into connected_clients when the session is present there. -/
def WSManager.unsubscribe_task (m : WSManager) (session_id task_id : String) :
    WSManager :=
  let m1 := { m with
    task_subscribers := subs_discard m.task_subscribers task_id session_id }
  match alist_lookup m1.connected_clients session_id with
  | some info =>
      let info2 := { info with subscribed_tasks :=
        info.subscribed_tasks.filter (fun t => t ≠ task_id) }
      { m1 with connected_clients :=
          alist_insert m1.connected_clients session_id info2 }
  | none => m1

/-- The room handling inside _cleanup_stale_connections: a plain discard of
the session from the room's subscriber set (no empty-room deletion there). -/
def WSManager.discard_room_member (m : WSManager)
    (session_id room_name : String) : WSManager :=
  match alist_lookup m.room_subscribers room_name with
  | some subs =>
      let subs2 := subs.filter (fun s => s ≠ session_id)
      { m with room_subscribers :=
          alist_insert m.room_subscribers room_name subs2 }
  | none => m

/-- The body of the per-session loop of _cleanup_stale_connections: pop the
client record, unsubscribe every task it lists, discard it from every room it
lists, drop its heartbeat, decrement current_connections. -/
def WSManager.cleanup_one (m : WSManager) (session_id : String) : WSManager :=
  let info := (alist_lookup m.connected_clients session_id).getD
    WSClientInfo.empty
  let m1 := { m with
    connected_clients := alist_erase m.connected_clients session_id }
  let m2 := info.subscribed_tasks.foldl
    (fun acc t => acc.unsubscribe_task session_id t) m1
  let m3 := info.subscribed_rooms.foldl
    (fun acc r => acc.discard_room_member session_id r) m2
  { m3 with
    client_heartbeats := alist_erase m3.client_heartbeats session_id,
    current_connections := m3.current_connections - 1 }

/-- WebSocketManager._cleanup_stale_connections at clock `now`: collect every
session whose heartbeat is more than 60 seconds old, then clean each one up. -/
def WSManager.cleanup_stale_connections (m : WSManager) (now : Int) :
    WSManager :=
  let stale := (m.client_heartbeats.filter
    (fun p => decide (60 < now - p.2))).map Prod.fst
  stale.foldl WSManager.cleanup_one m

/-- WebSocketManager._send_task_status against the scheduler's task_results:
when a TaskResult exists for the id and the id has a subscriber set, emits a
task_status_update to each member; otherwise nothing is sent. Returns the
state and the session ids a delivery was attempted to. -/
def WSManager.send_task_status (m : WSManager)
    (results : List (String × TaskResult)) (task_id : String) :
    WSManager × List String :=
  match alist_lookup results task_id with
  | some _ =>
      match alist_lookup m.task_subscribers task_id with
      | some subs =>
          ({ m with messages_sent := m.messages_sent + subs.length }, subs)
      | none => (m, [])
  | none => (m, [])

/-- The wire events emitted by the subscribe_task handler. -/
inductive WSEvent where
  | errorMsg (message : String)
  | task_subscribed (task_id : String)
  | task_status_update (session_id task_id : String)
deriving DecidableEq, Repr

/-- The subscribe_task socket handler: a missing or falsy task id is answered
with an error; otherwise the subscription is registered, a task_subscribed
acknowledgement is emitted, and _send_task_status pushes the current
TaskResult to the task's subscribers (a no-op when no result is stored). -/
def handle_subscribe_task (m : WSManager)
    (results : List (String × TaskResult)) (session_id : String)
    (data_task_id : Option String) : WSManager × List WSEvent :=
  match data_task_id with
  | none => (m, [WSEvent.errorMsg "Task ID is required"])
  | some task_id =>
      if task_id = "" then
        (m, [WSEvent.errorMsg "Task ID is required"])
      else
        let m1 := m.subscribe_task session_id task_id
        let res := m1.send_task_status results task_id
        (res.1, WSEvent.task_subscribed task_id ::
          res.2.map (fun s => WSEvent.task_status_update s task_id))


/-- The TaskQueue states reachable through the public scheduler interface:
a fresh instance followed by any interleaving of submissions, worker loop
iterations and cancellations. -/
inductive TaskQueue.Reachable : TaskQueue → Prop where
  | init (mw mq : Nat) : TaskQueue.Reachable (TaskQueue.init mw mq)
  | submit (q : TaskQueue) (task_type : String) (outcomes : List ExecOutcome)
      (priority : TaskPriority) (max_retries : Nat) (timeout : Int)
      (scheduled_for : Option Int) (now : Int) (uid : String) :
      TaskQueue.Reachable q →
      TaskQueue.Reachable (q.submit_task task_type outcomes priority
        max_retries timeout scheduled_for now uid).1
  | step (q : TaskQueue) (now : Int) : TaskQueue.Reachable q →
      TaskQueue.Reachable (q.worker_step now).state
  | cancel (q : TaskQueue) (task_id : String) : TaskQueue.Reachable q →
      TaskQueue.Reachable (q.cancel_task task_id).1

/-- The session id is gone from every map of the hub: the cleaned-up state
the liveness sweep must leave a stale connection in. -/
def ws_absent (m : WSManager) (sid : String) : Prop :=
  alist_lookup m.connected_clients sid = none ∧
  alist_lookup m.client_heartbeats sid = none ∧
  (∀ t subs, alist_lookup m.task_subscribers t = some subs → sid ∉ subs) ∧
  (∀ r subs, alist_lookup m.room_subscribers r = some subs → sid ∉ subs)

/-- The bookkeeping invariant the hub's handlers maintain for a connection:
its client record lists every task and room subscription that the subscriber
maps hold for it. -/
def ws_synced (m : WSManager) (sid : String) (info : WSClientInfo) : Prop :=
  alist_lookup m.connected_clients sid = some info ∧
  (∀ t subs, alist_lookup m.task_subscribers t = some subs → sid ∈ subs →
    t ∈ info.subscribed_tasks) ∧
  (∀ r subs, alist_lookup m.room_subscribers r = some subs → sid ∈ subs →
    r ∈ info.subscribed_rooms)

/-- Pointwise containment of a session id's memberships between two
subscriber maps: wherever the session appears in the first map, it already
appeared under the same key in the second. -/
def submap_at (sid : String) (l2 l1 : List (String × List String)) : Prop :=
  ∀ k subs2, alist_lookup l2 k = some subs2 → sid ∈ subs2 →
    ∃ subs, alist_lookup l1 k = some subs ∧ sid ∈ subs

/-- A fresh queue holding one submitted (PENDING) task demo_aaaa whose work
item would succeed with payload ok after 5 seconds. -/
def c1_submitted : TaskQueue :=
  ((TaskQueue.init 3 10).submit_task "demo" [ExecOutcome.success "ok" 5]
    TaskPriority.normal 3 300 none 0 "aaaa").1

/-- cancel_task called on the PENDING task demo_aaaa. -/
def c1_cancel : TaskQueue × Bool := c1_submitted.cancel_task "demo_aaaa"

/-- The queue after the worker loop ran demo_aaaa to completion. -/
def c2_done : TaskQueue := (c1_submitted.worker_step 0).state

/-- A queue holding a task submitted with max_retries = 3 whose work item
fails on its first two invocations and succeeds on the third. -/
def c3_submitted : TaskQueue :=
  ((TaskQueue.init 3 10).submit_task "demo"
    [ExecOutcome.failure "boom1" 0, ExecOutcome.failure "boom2" 0,
     ExecOutcome.success "ok" 0]
    TaskPriority.normal 3 300 none 0 "bbbb").1

/-- The three worker iterations that run the three attempts (clocks 0, 10
and 20 are past each retry's backoff). -/
def c3_final : TaskQueue :=
  (((c3_submitted.worker_step 0).state.worker_step 10).state.worker_step
    20).state

/-- A queue of capacity 1 already holding one pending task. -/
def c4_full : TaskQueue :=
  ((TaskQueue.init 3 1).submit_task "demo" [] TaskPriority.normal 3 300
    none 0 "cccc").1

/-- An URGENT task whose scheduled_for lies in the future (not eligible at
clock 0). -/
def c5_taskA : BackgroundTask :=
  { task_id := "a", task_type := "demo", priority := TaskPriority.urgent,
    outcomes := [ExecOutcome.success "ok" 0], created_at := 0,
    scheduled_for := some 100 }

/-- A LOW task with no scheduled_for (eligible immediately). -/
def c5_taskB : BackgroundTask :=
  { task_id := "b", task_type := "demo", priority := TaskPriority.low,
    outcomes := [ExecOutcome.success "ok" 0], created_at := 0,
    scheduled_for := none }

/-- A queue holding the ineligible URGENT task and the eligible LOW task,
with worker capacity free. -/
def c5_queue : TaskQueue :=
  { max_workers := 3, max_queue_size := 10,
    pending_queue := [c5_taskA, c5_taskB] }

/-- A LOW task submitted first (created_at 0), eligible. -/
def c6_taskB : BackgroundTask :=
  { task_id := "b6", task_type := "demo", priority := TaskPriority.low,
    outcomes := [ExecOutcome.success "ok" 0], created_at := 0,
    scheduled_for := none }

/-- An URGENT task submitted later (created_at 5), eligible. -/
def c6_taskA : BackgroundTask :=
  { task_id := "a6", task_type := "demo", priority := TaskPriority.urgent,
    outcomes := [ExecOutcome.success "ok" 0], created_at := 5,
    scheduled_for := none }

/-- A queue holding both eligible tasks, the LOW one enqueued first. -/
def c6_queue : TaskQueue :=
  { max_workers := 3, max_queue_size := 10,
    pending_queue := [c6_taskB, c6_taskA] }

/-- A failed task about to be retried for the first time (retries left). -/
def c7_task : BackgroundTask :=
  { task_id := "t7", task_type := "demo",
    priority := TaskPriority.normal, outcomes := [], max_retries := 3,
    timeout := 300, created_at := 0, scheduled_for := none }

/-- A queue whose stored result for t7 has retry_count 0 (no retry yet). -/
def c7_queue : TaskQueue :=
  { max_workers := 3, max_queue_size := 10,
    task_results := [("t7",
      { task_id := "t7", status := TaskStatus.failed, retry_count := 0 })] }

/-- A hub state with one client s1, heartbeat at clock 0, subscribed to
task t1 and room r1, with the subscriber maps mirrored in its record. -/
def c8_info : WSClientInfo :=
  { session_id := "s1", connected_at := 0, subscribed_tasks := ["t1"],
    subscribed_rooms := ["r1"] }

/-- The hub holding exactly the connection described by c8_info. -/
def c8_hub : WSManager :=
  { connected_clients := [("s1", c8_info)],
    task_subscribers := [("t1", ["s1"])],
    room_subscribers := [("r1", ["s1"])],
    client_heartbeats := [("s1", 0)],
    current_connections := 1, messages_sent := 0 }

theorem pq_lt_irrefl (a : BackgroundTask) : pq_lt a a = false := by
  simp [pq_lt]

theorem pq_lt_trans {a b c : BackgroundTask} (hab : pq_lt a b = true)
    (hbc : pq_lt b c = true) : pq_lt a c = true := by
  simp only [pq_lt] at *
  split_ifs at hab hbc ⊢ <;>
    simp only [decide_eq_true_eq, decide_eq_false_iff_not, ne_eq,
      Decidable.not_not] at * <;> omega

theorem pq_lt_neg_trans {a b c : BackgroundTask} (hab : pq_lt a b = false)
    (hbc : pq_lt b c = false) : pq_lt a c = false := by
  simp only [pq_lt] at *
  split_ifs at hab hbc ⊢ <;>
    simp only [decide_eq_true_eq, decide_eq_false_iff_not, ne_eq,
      Decidable.not_not] at * <;> omega

theorem pq_min_not_lt (t : BackgroundTask) (ts : List BackgroundTask) :
    ∀ x ∈ t :: ts, pq_lt x (pq_min t ts) = false := by
  induction ts generalizing t with
  | nil =>
      intro x hx
      simp only [List.mem_singleton] at hx
      subst hx
      exact pq_lt_irrefl x
  | cons y ys ih =>
      intro x hx
      simp only [pq_min]
      by_cases hyt : pq_lt y t = true
      · simp only [hyt, if_pos]
        rcases List.mem_cons.mp hx with hx1 | hx2
        · -- x = t : were x below the minimum, so would y be via transitivity
          subst hx1
          cases hlt : pq_lt x (pq_min y ys) with
          | false => rfl
          | true =>
              have hy : pq_lt y (pq_min y ys) = false :=
                ih y y (List.mem_cons_self y ys)
              have := pq_lt_trans hyt hlt
              rw [hy] at this
              exact Bool.noConfusion this
        · exact ih y x hx2
      · have hyt' : pq_lt y t = false := by
          cases hh : pq_lt y t
          · rfl
          · exact absurd hh hyt
        simp only [hyt', Bool.false_eq_true, if_neg, not_false_iff]
        rcases List.mem_cons.mp hx with hx1 | hx2
        · subst hx1; exact ih x x (List.mem_cons_self x ys)
        · rcases List.mem_cons.mp hx2 with hx3 | hx4
          · -- x = y : y is not below t, t is not below the running minimum
            subst hx3
            exact pq_lt_neg_trans hyt' (ih t t (List.mem_cons_self t ys))
          · exact ih t x (List.mem_cons_of_mem t hx4)

theorem alist_lookup_insert_self {α : Type} (l : List (String × α))
    (k : String) (v : α) : alist_lookup (alist_insert l k v) k = some v := by
  induction l with
  | nil => simp [alist_insert, alist_lookup]
  | cons p rest ih =>
      obtain ⟨k1, v1⟩ := p
      by_cases h : k1 = k <;> simp [alist_insert, alist_lookup, h, ih]

theorem alist_lookup_insert_ne {α : Type} (l : List (String × α))
    (k k2 : String) (v : α) (h : k2 ≠ k) :
    alist_lookup (alist_insert l k v) k2 = alist_lookup l k2 := by
  induction l with
  | nil => simp [alist_insert, alist_lookup, Ne.symm h]
  | cons p rest ih =>
      obtain ⟨k1, v1⟩ := p
      by_cases h1 : k1 = k
      · subst h1
        simp [alist_insert, alist_lookup, Ne.symm h]
      · by_cases h2 : k1 = k2 <;>
          simp [alist_insert, alist_lookup, h1, h2, h, ih]

theorem alist_lookup_erase_self {α : Type} (l : List (String × α))
    (k : String) : alist_lookup (alist_erase l k) k = none := by
  induction l with
  | nil => simp [alist_erase, alist_lookup]
  | cons p rest ih =>
      obtain ⟨k1, v1⟩ := p
      by_cases h : k1 = k <;>
        simp_all [alist_erase, alist_lookup, List.filter]

theorem alist_lookup_erase_ne {α : Type} (l : List (String × α))
    (k k2 : String) (h : k2 ≠ k) :
    alist_lookup (alist_erase l k) k2 = alist_lookup l k2 := by
  induction l with
  | nil => simp [alist_erase, alist_lookup]
  | cons p rest ih =>
      obtain ⟨k1, v1⟩ := p
      by_cases h1 : k1 = k <;> by_cases h2 : k1 = k2 <;>
        simp_all [alist_erase, alist_lookup, List.filter]

theorem alist_lookup_mem {α : Type} {l : List (String × α)} {k : String}
    {v : α} (h : alist_lookup l k = some v) : (k, v) ∈ l := by
  induction l with
  | nil => simp [alist_lookup] at h
  | cons p rest ih =>
      obtain ⟨k1, v1⟩ := p
      by_cases h1 : k1 = k
      · subst h1
        simp [alist_lookup] at h
        simp [h]
      · simp [alist_lookup, h1] at h
        exact List.mem_cons_of_mem _ (ih h)

theorem foldl_preserve {σ α : Type} (P : σ → Prop) (f : σ → α → σ)
    (l : List α) (hf : ∀ s x, x ∈ l → P s → P (f s x)) (s : σ) (hs : P s) :
    P (l.foldl f s) := by
  induction l generalizing s with
  | nil => exact hs
  | cons x xs ih =>
      exact ih (fun s2 y hy => hf s2 y (List.mem_cons_of_mem _ hy))
        (f s x) (hf s x (List.mem_cons_self _ _) hs)

/-- C1: refuted by the code, which contradicts the spec's intent: cancel_task
on the PENDING task demo_aaaa returns true and marks its TaskResult
CANCELLED, yet the task stays in the pending queue, the next dispatch-loop
iteration still pops it and invokes its callable, and the CANCELLED result
is silently overwritten with RUNNING and then COMPLETED. -/
theorem C1_cancelled_pending_task_still_runs :
    c1_cancel.2 = true ∧
    (c1_cancel.1.get_task_status "demo_aaaa").map TaskResult.status =
      some TaskStatus.cancelled ∧
    (c1_cancel.1.worker_step 0).dispatched.map BackgroundTask.task_id =
      some "demo_aaaa" ∧
    ((c1_cancel.1.worker_step 0).state.get_task_status "demo_aaaa").map
      TaskResult.status = some TaskStatus.completed := by
  decide

/-- C2 counterexample: a task that already COMPLETED (and is not running) is
cancelled with return value true, and its stored TaskResult is mutated to
CANCELLED — the claim says cancel_task returns true only for PENDING tasks
and leaves terminal results unchanged. -/
theorem C2_counterexample_cancel_completed_returns_true :
    (c2_done.get_task_status "demo_aaaa").map TaskResult.status =
      some TaskStatus.completed ∧
    alist_lookup c2_done.running_tasks "demo_aaaa" = none ∧
    (c2_done.cancel_task "demo_aaaa").2 = true ∧
    ((c2_done.cancel_task "demo_aaaa").1.get_task_status "demo_aaaa").map
      TaskResult.status = some TaskStatus.cancelled := by
  decide

/-- C2 amended: cancel_task returns true exactly when the task is not in
running_tasks and a TaskResult is stored for it, whatever that result's
status (PENDING, RETRYING or terminal); in that case the stored status is
set to CANCELLED, and in the false cases the whole state is unchanged. -/
theorem C2_cancel_task_characterization (q : TaskQueue) (tid : String) :
    ((q.cancel_task tid).2 = true ↔
      alist_lookup q.running_tasks tid = none ∧
        (q.get_task_status tid).isSome = true) ∧
    ((q.cancel_task tid).2 = false → (q.cancel_task tid).1 = q) ∧
    ((q.cancel_task tid).2 = true →
      ((q.cancel_task tid).1.get_task_status tid).map TaskResult.status =
        some TaskStatus.cancelled) := by
  cases hr : alist_lookup q.running_tasks tid with
  | some t =>
      simp [TaskQueue.cancel_task, hr]
  | none =>
      cases hres : alist_lookup q.task_results tid with
      | some tr =>
          simp [TaskQueue.cancel_task, TaskQueue.get_task_status, hr, hres,
            alist_lookup_insert_self]
      | none =>
          simp [TaskQueue.cancel_task, TaskQueue.get_task_status, hr, hres]

theorem C2_cancel_task_characterization_witness :
    ((TaskQueue.init 3 10).cancel_task "x").1 = TaskQueue.init 3 10 :=
  (C2_cancel_task_characterization (TaskQueue.init 3 10) "x").2.1 (by decide)

/-- C3: refuted by the code, contradicting the spec's testable property: the
task submitted with max_retries 3 fails twice (the stored result is RETRYING
with retry_count 1 after each failure) and succeeds on the third attempt,
but the final TaskResult has retry_count 0, not 2, because _execute_task
replaces the stored TaskResult with a fresh one (retry_count 0) on every
attempt. -/
theorem C3_retry_count_reset_on_success :
    ((c3_submitted.worker_step 0).state.get_task_status "demo_bbbb").map
      TaskResult.retry_count = some 1 ∧
    (((c3_submitted.worker_step 0).state.worker_step 10).state.get_task_status
      "demo_bbbb").map TaskResult.retry_count = some 1 ∧
    (c3_final.get_task_status "demo_bbbb").map TaskResult.status =
      some TaskStatus.completed ∧
    (c3_final.get_task_status "demo_bbbb").map TaskResult.retry_count =
      some 0 := by
  decide

/-- C4: with the pending queue at capacity, submit_task rejects the
submission with the queue-full error and returns the state unchanged — same
queue contents, same stored TaskResults, same tasks_submitted counter. -/
theorem C4_submit_task_queue_full_rejects (q : TaskQueue)
    (task_type : String) (outcomes : List ExecOutcome)
    (priority : TaskPriority) (max_retries : Nat) (timeout : Int)
    (scheduled_for : Option Int) (now : Int) (uid : String)
    (h : q.queue_full = true) :
    q.submit_task task_type outcomes priority max_retries timeout
      scheduled_for now uid = (q, Except.error QueueError.queueFull) := by
  simp [TaskQueue.submit_task, h]

theorem C4_submit_task_queue_full_rejects_witness :
    c4_full.submit_task "demo2" [] TaskPriority.normal 3 300 none 5 "dddd" =
      (c4_full, Except.error QueueError.queueFull) :=
  C4_submit_task_queue_full_rejects c4_full "demo2" [] TaskPriority.normal
    3 300 none 5 "dddd" (by decide)

/-- C5 counterexample: with capacity free and the eligible LOW task
c5_taskB in the queue, the round at clock 0 dispatches nothing because the
popped highest-priority task (URGENT, scheduled_for 100) is not yet
eligible: it is put back and the loop sleeps, so the ineligible task does
prevent the eligible lower-priority one from being dispatched that round. -/
theorem C5_counterexample_ineligible_head_blocks_eligible_task :
    c5_taskB ∈ c5_queue.pending_queue ∧
    needs_wait c5_taskB 0 = false ∧
    c5_queue.running_tasks.length < c5_queue.max_workers ∧
    (c5_queue.worker_step 0).dispatched = none ∧
    c5_taskB ∈ (c5_queue.worker_step 0).state.pending_queue := by
  decide

/-- C5 amended: when the popped highest-priority task is not yet eligible
(scheduled_for in the future), the dispatch iteration re-queues it and ends
without dispatching any task — an eligible lower-priority task is not
considered until a later round. -/
theorem C5_ineligible_head_requeued_nothing_dispatched (q : TaskQueue)
    (now : Int) (task : BackgroundTask) (rest : List BackgroundTask)
    (s : Int) (hne : q.pending_queue ≠ [])
    (hcap : q.running_tasks.length < q.max_workers)
    (hpop : pq_pop q.pending_queue = some (task, rest))
    (hsched : task.scheduled_for = some s) (hnow : now < s) :
    q.worker_step now =
      { state := { q with pending_queue := rest ++ [task] },
        dispatched := none } := by
  have hw : needs_wait task now = true := by simp [needs_wait, hsched, hnow]
  simp [TaskQueue.worker_step, hne, hcap, hpop, hw]

theorem C5_ineligible_head_requeued_nothing_dispatched_witness :
    c5_queue.worker_step 0 =
      { state := { c5_queue with pending_queue := [c5_taskB] ++ [c5_taskA] },
        dispatched := none } :=
  C5_ineligible_head_requeued_nothing_dispatched c5_queue 0 c5_taskA
    [c5_taskB] 100 (by decide) (by decide) (by decide) (by decide) (by decide)

theorem dispatched_is_min (q : TaskQueue) (now : Int) (t : BackgroundTask)
    (h : (q.worker_step now).dispatched = some t) :
    ∀ x ∈ q.pending_queue, pq_lt x t = false := by
  intro x hx
  cases hq : q.pending_queue with
  | nil => rw [hq] at hx; cases hx
  | cons a as =>
      by_cases hcap : q.running_tasks.length < q.max_workers
      · by_cases hwait : needs_wait (pq_min a as) now
        · simp [TaskQueue.worker_step, hq, pq_pop, hcap, hwait] at h
        · simp [TaskQueue.worker_step, hq, pq_pop, hcap, hwait] at h
          rw [← h]
          exact pq_min_not_lt a as x (hq ▸ hx)
      · simp [TaskQueue.worker_step, hq, pq_pop, hcap] at h

/-- C6: the dispatch loop never runs a task B while a task A that strictly
precedes it — strictly higher priority rank, or equal rank and earlier
created_at — is still pending: whatever it dispatches is minimal in the
BackgroundTask order, so among eligible tasks A is always dispatched before
B, which is selection by priority rank then insertion order. -/
theorem C6_dispatch_respects_priority_order (q : TaskQueue) (now : Int)
    (A B : BackgroundTask) (hA : A ∈ q.pending_queue)
    (hlt : pq_lt A B = true) :
    (q.worker_step now).dispatched ≠ some B := by
  intro hdisp
  have hmin := dispatched_is_min q now B hdisp A hA
  rw [hlt] at hmin
  exact Bool.noConfusion hmin

theorem C6_dispatch_respects_priority_order_witness :
    (c6_queue.worker_step 10).dispatched ≠ some c6_taskB :=
  C6_dispatch_respects_priority_order c6_queue 10 c6_taskA c6_taskB
    (by decide) (by decide)

/-- C7 counterexample: a first retry (stored retry_count 0, retries left) is
scheduled 2 seconds out, not the claim's min(2^0, cap) = 1 second, and the
stored retry_count becomes 1: the code increments retry_count before
computing the delay. -/
theorem C7_counterexample_first_retry_delayed_two_seconds :
    (c7_queue.get_task_status "t7").map TaskResult.retry_count = some 0 ∧
    0 < c7_task.max_retries ∧
    (c7_queue.retry_task c7_task 0).pending_queue.map
      BackgroundTask.scheduled_for = [some 2] ∧
    ((c7_queue.retry_task c7_task 0).get_task_status "t7").map
      TaskResult.retry_count = some 1 := by
  decide

/-- C7 amended: on a failure or timeout with retries remaining, the retry
machinery first increments the stored retry_count and sets status RETRYING,
then computes delay = min(2^retry_count, 60) from the incremented value and
requeues the task with scheduled_for = now + delay and max_retries
decremented; so the first retry of an execution is delayed by
min(2^1, 60) = 2 seconds. -/
theorem C7_retry_delay_uses_incremented_count (q : TaskQueue)
    (task : BackgroundTask) (now : Int) (tr : TaskResult)
    (hmr : 0 < task.max_retries)
    (hres : alist_lookup q.task_results task.task_id = some tr) :
    q.retry_task task now = { q with
      task_results := (alist_insert q.task_results task.task_id
        { tr with retry_count := tr.retry_count + 1, status := TaskStatus.retrying }),
      pending_queue := q.pending_queue ++
        [{ task with max_retries := task.max_retries - 1, scheduled_for := some (now + min (2 ^ (tr.retry_count + 1)) 60) }],
      tasks_retried := q.tasks_retried + 1 } := by
  simp [TaskQueue.retry_task, hmr, hres]

theorem C7_retry_delay_uses_incremented_count_witness :
    c7_queue.retry_task c7_task 0 = { c7_queue with
      task_results := (alist_insert c7_queue.task_results "t7"
        { task_id := "t7", status := TaskStatus.retrying, retry_count := 1 }),
      pending_queue := [{ c7_task with max_retries := 2, scheduled_for := some 2 }],
      tasks_retried := 1 } := by
  have h := C7_retry_delay_uses_incremented_count c7_queue c7_task 0
    ({ task_id := "t7", status := TaskStatus.failed, retry_count := 0 })
    (by decide) (by decide)
  rw [h]
  decide

theorem retry_task_tasks_completed (q : TaskQueue) (task : BackgroundTask)
    (now : Int) : (q.retry_task task now).tasks_completed =
      q.tasks_completed := by
  unfold TaskQueue.retry_task
  split
  · split <;> rfl
  · rfl

theorem retry_task_total_execution_time (q : TaskQueue)
    (task : BackgroundTask) (now : Int) :
    (q.retry_task task now).total_execution_time =
      q.total_execution_time := by
  unfold TaskQueue.retry_task
  split
  · split <;> rfl
  · rfl

theorem cleanup_tasks_completed (q : TaskQueue) (now : Int) :
    (q.cleanup_expired_results now).tasks_completed = q.tasks_completed :=
  rfl

theorem cleanup_total_execution_time (q : TaskQueue) (now : Int) :
    (q.cleanup_expired_results now).total_execution_time =
      q.total_execution_time :=
  rfl

theorem execute_task_stats_inv (q : TaskQueue) (task : BackgroundTask)
    (now : Int) (h : q.tasks_completed = 0 → q.total_execution_time = 0) :
    (q.execute_task task now).1.tasks_completed = 0 →
    (q.execute_task task now).1.total_execution_time = 0 := by
  intro hc
  unfold TaskQueue.execute_task at hc ⊢
  cases hout : task.outcomes with
  | nil => simp [hout] at hc
  | cons o rest0 =>
      cases o with
      | success p d => simp [hout] at hc
      | failure msg d =>
          simp [hout, retry_task_tasks_completed] at hc
          simp [hout, retry_task_total_execution_time]
          exact h hc
      | timedOut =>
          simp [hout, retry_task_tasks_completed] at hc
          simp [hout, retry_task_total_execution_time]
          exact h hc

theorem worker_step_stats_inv (q : TaskQueue) (now : Int)
    (h : q.tasks_completed = 0 → q.total_execution_time = 0) :
    (q.worker_step now).state.tasks_completed = 0 →
    (q.worker_step now).state.total_execution_time = 0 := by
  intro hc
  unfold TaskQueue.worker_step at hc ⊢
  by_cases hcond : q.pending_queue ≠ [] ∧
      q.running_tasks.length < q.max_workers
  · rw [if_pos hcond] at hc ⊢
    cases hp : pq_pop q.pending_queue with
    | none =>
        simp only [hp, cleanup_tasks_completed] at hc
        simp only [hp, cleanup_total_execution_time]
        exact h hc
    | some pr =>
        obtain ⟨task, rest⟩ := pr
        by_cases hw : needs_wait task now
        · simp only [hp, hw, if_pos] at hc ⊢
          exact h hc
        · simp only [hp, hw, Bool.false_eq_true, if_neg, not_false_iff,
            cleanup_tasks_completed, cleanup_total_execution_time] at hc ⊢
          exact execute_task_stats_inv { q with pending_queue := rest }
            task now h hc
  · rw [if_neg hcond] at hc ⊢
    rw [cleanup_tasks_completed] at hc
    rw [cleanup_total_execution_time]
    exact h hc

theorem submit_task_stats (q : TaskQueue) (task_type : String)
    (outcomes : List ExecOutcome) (priority : TaskPriority)
    (max_retries : Nat) (timeout : Int) (scheduled_for : Option Int)
    (now : Int) (uid : String) :
    (q.submit_task task_type outcomes priority max_retries timeout
      scheduled_for now uid).1.tasks_completed = q.tasks_completed ∧
    (q.submit_task task_type outcomes priority max_retries timeout
      scheduled_for now uid).1.total_execution_time =
        q.total_execution_time := by
  unfold TaskQueue.submit_task
  split <;> exact ⟨rfl, rfl⟩

theorem cancel_task_stats (q : TaskQueue) (tid : String) :
    (q.cancel_task tid).1.tasks_completed = q.tasks_completed ∧
    (q.cancel_task tid).1.total_execution_time = q.total_execution_time := by
  unfold TaskQueue.cancel_task
  split
  · exact ⟨rfl, rfl⟩
  · split <;> exact ⟨rfl, rfl⟩

theorem reachable_completed_zero_total_zero (q : TaskQueue)
    (h : TaskQueue.Reachable q) :
    q.tasks_completed = 0 → q.total_execution_time = 0 := by
  induction h with
  | init mw mq => intro _; rfl
  | submit q0 task_type outcomes priority max_retries timeout scheduled_for
      now uid hr ih =>
      have hs := submit_task_stats q0 task_type outcomes priority max_retries
        timeout scheduled_for now uid
      intro hc
      rw [hs.1] at hc
      rw [hs.2]
      exact ih hc
  | step q0 now hr ih => exact worker_step_stats_inv q0 now ih
  | cancel q0 tid hr ih =>
      have hs := cancel_task_stats q0 tid
      intro hc
      rw [hs.1] at hc
      rw [hs.2]
      exact ih hc

/-- C9: in every state reachable through the scheduler interface,
get_queue_stats reports a well-defined avg_execution_time: the denominator
max(tasks_completed, 1) is always positive, and when no task has completed
the reported average is exactly 0 (total_execution_time only grows together
with tasks_completed, so it is still 0 then). -/
theorem C9_avg_execution_time_well_defined (q : TaskQueue)
    (h : TaskQueue.Reachable q) :
    0 < max q.tasks_completed 1 ∧
    q.get_queue_stats.avg_execution_time =
      (q.total_execution_time : Rat) / ((max q.tasks_completed 1 : Nat) : Rat) ∧
    (q.tasks_completed = 0 → q.get_queue_stats.avg_execution_time = 0) := by
  refine ⟨by omega, rfl, ?_⟩
  intro hc
  have ht := reachable_completed_zero_total_zero q h hc
  simp [TaskQueue.get_queue_stats, hc, ht]

theorem C9_avg_execution_time_well_defined_witness :
    (TaskQueue.init 3 10).get_queue_stats.avg_execution_time = 0 :=
  (C9_avg_execution_time_well_defined (TaskQueue.init 3 10)
    (TaskQueue.Reachable.init 3 10)).2.2 rfl

theorem subscribe_task_registers (m : WSManager) (sid tid : String) :
    ∃ subs, alist_lookup (m.subscribe_task sid tid).task_subscribers tid =
      some subs ∧ sid ∈ subs := by
  have hts : (m.subscribe_task sid tid).task_subscribers =
      alist_insert m.task_subscribers tid
        (if sid ∈ (alist_lookup m.task_subscribers tid).getD [] then
          (alist_lookup m.task_subscribers tid).getD []
        else (alist_lookup m.task_subscribers tid).getD [] ++ [sid]) := by
    unfold WSManager.subscribe_task
    cases hc : alist_lookup m.connected_clients sid <;> simp [hc]
  refine ⟨(if sid ∈ (alist_lookup m.task_subscribers tid).getD [] then
    (alist_lookup m.task_subscribers tid).getD []
  else (alist_lookup m.task_subscribers tid).getD [] ++ [sid]), ?_, ?_⟩
  · rw [hts]
    exact alist_lookup_insert_self _ _ _
  · by_cases hmem : sid ∈ (alist_lookup m.task_subscribers tid).getD [] <;>
      simp [hmem]

/-- C10: subscribing to a task id with no stored TaskResult still registers
the session in the task-subscriber map and emits only the task_subscribed
acknowledgement — no initial status push and no error; the initial push is
sent only when a TaskResult for the id exists. -/
theorem C10_subscribe_unknown_task_registers_no_push (m : WSManager)
    (results : List (String × TaskResult)) (sid tid : String)
    (htid : tid ≠ "") (hres : alist_lookup results tid = none) :
    (handle_subscribe_task m results sid (some tid)).2 =
      [WSEvent.task_subscribed tid] ∧
    (∃ subs, alist_lookup
      (handle_subscribe_task m results sid (some tid)).1.task_subscribers
        tid = some subs ∧ sid ∈ subs) := by
  have h2 : handle_subscribe_task m results sid (some tid) =
      (m.subscribe_task sid tid, [WSEvent.task_subscribed tid]) := by
    simp [handle_subscribe_task, htid, WSManager.send_task_status, hres]
  rw [h2]
  exact ⟨rfl, subscribe_task_registers m sid tid⟩

theorem C10_subscribe_unknown_task_registers_no_push_witness :
    (handle_subscribe_task {} [] "s1" (some "t1")).2 =
      [WSEvent.task_subscribed "t1"] :=
  (C10_subscribe_unknown_task_registers_no_push {} [] "s1" "t1"
    (by decide) (by decide)).1

theorem unsub_room_subscribers (m : WSManager) (s t : String) :
    (m.unsubscribe_task s t).room_subscribers = m.room_subscribers := by
  unfold WSManager.unsubscribe_task
  cases h2 : alist_lookup m.connected_clients s <;> simp [h2]

theorem unsub_client_heartbeats (m : WSManager) (s t : String) :
    (m.unsubscribe_task s t).client_heartbeats = m.client_heartbeats := by
  unfold WSManager.unsubscribe_task
  cases h2 : alist_lookup m.connected_clients s <;> simp [h2]

theorem unsub_connected_other (m : WSManager) (s t sid : String)
    (hne : sid ≠ s) :
    alist_lookup (m.unsubscribe_task s t).connected_clients sid =
      alist_lookup m.connected_clients sid := by
  unfold WSManager.unsubscribe_task
  cases h2 : alist_lookup m.connected_clients s <;>
    simp [h2, alist_lookup_insert_ne _ _ _ _ hne]

theorem unsub_tasks (m : WSManager) (s t : String) :
    (m.unsubscribe_task s t).task_subscribers =
      subs_discard m.task_subscribers t s := by
  unfold WSManager.unsubscribe_task
  cases h2 : alist_lookup m.connected_clients s <;> simp [h2]

theorem subs_discard_no_self (ts : List (String × List String))
    (key s : String) (subs2 : List String)
    (h : alist_lookup (subs_discard ts key s) key = some subs2) :
    s ∉ subs2 := by
  unfold subs_discard at h
  cases h1 : alist_lookup ts key with
  | none =>
      rw [h1] at h
      simp only [h1] at h
      exact absurd h (by simp [h1])
  | some subs =>
      simp only [h1] at h
      by_cases he : (subs.filter (fun x => x ≠ s)).isEmpty
      · rw [if_pos he, alist_lookup_erase_self] at h
        cases h
      · rw [if_neg he, alist_lookup_insert_self] at h
        cases h
        intro hmem
        simp at hmem

theorem subs_discard_other (ts : List (String × List String))
    (key s k2 : String) (hne : k2 ≠ key) :
    alist_lookup (subs_discard ts key s) k2 = alist_lookup ts k2 := by
  unfold subs_discard
  cases h1 : alist_lookup ts key with
  | none => rfl
  | some subs =>
      dsimp only
      by_cases he : (subs.filter (fun x => x ≠ s)).isEmpty
      · rw [if_pos he]
        exact alist_lookup_erase_ne _ _ _ hne
      · rw [if_neg he]
        exact alist_lookup_insert_ne _ _ _ _ hne

theorem subs_discard_submap (ts : List (String × List String))
    (key s sid : String) : submap_at sid (subs_discard ts key s) ts := by
  intro k subs2 hl hmem
  by_cases hk : k = key
  · subst hk
    unfold subs_discard at hl
    cases h1 : alist_lookup ts k with
    | none => simp [h1] at hl
    | some subs =>
        simp only [h1] at hl
        by_cases he : (subs.filter (fun x => x ≠ s)).isEmpty
        · rw [if_pos he, alist_lookup_erase_self] at hl
          cases hl
        · rw [if_neg he, alist_lookup_insert_self] at hl
          cases hl
          refine ⟨subs, rfl, ?_⟩
          exact (List.mem_filter.mp hmem).1
  · rw [subs_discard_other ts key s k hk] at hl
    exact ⟨subs2, hl, hmem⟩

theorem unsub_connected_none (m : WSManager) (t sid : String)
    (h : alist_lookup m.connected_clients sid = none) :
    (m.unsubscribe_task sid t).connected_clients = m.connected_clients := by
  unfold WSManager.unsubscribe_task
  simp [h]

theorem droom_connected (m : WSManager) (s r : String) :
    (m.discard_room_member s r).connected_clients = m.connected_clients := by
  unfold WSManager.discard_room_member
  cases h1 : alist_lookup m.room_subscribers r <;> simp [h1]

theorem droom_heartbeats (m : WSManager) (s r : String) :
    (m.discard_room_member s r).client_heartbeats = m.client_heartbeats := by
  unfold WSManager.discard_room_member
  cases h1 : alist_lookup m.room_subscribers r <;> simp [h1]

theorem droom_tasks (m : WSManager) (s r : String) :
    (m.discard_room_member s r).task_subscribers = m.task_subscribers := by
  unfold WSManager.discard_room_member
  cases h1 : alist_lookup m.room_subscribers r <;> simp [h1]

theorem droom_no_self (m : WSManager) (sid r : String) (subs2 : List String)
    (h : alist_lookup (m.discard_room_member sid r).room_subscribers r =
      some subs2) : sid ∉ subs2 := by
  unfold WSManager.discard_room_member at h
  cases h1 : alist_lookup m.room_subscribers r with
  | none =>
      simp only [h1] at h
      cases h
  | some subs =>
      simp only [h1] at h
      rw [alist_lookup_insert_self] at h
      cases h
      intro hmem
      simp at hmem

theorem droom_other (m : WSManager) (s r r2 : String) (hne : r2 ≠ r) :
    alist_lookup (m.discard_room_member s r).room_subscribers r2 =
      alist_lookup m.room_subscribers r2 := by
  unfold WSManager.discard_room_member
  cases h1 : alist_lookup m.room_subscribers r with
  | none => rfl
  | some subs =>
      dsimp only
      exact alist_lookup_insert_ne _ _ _ _ hne

theorem droom_submap (m : WSManager) (s r sid : String) :
    submap_at sid (m.discard_room_member s r).room_subscribers
      m.room_subscribers := by
  intro k subs2 hl hmem
  by_cases hk : k = r
  · subst hk
    unfold WSManager.discard_room_member at hl
    cases h1 : alist_lookup m.room_subscribers k with
    | none =>
        simp only [h1] at hl
        exact ⟨subs2, hl, hmem⟩
    | some subs =>
        simp only [h1] at hl
        rw [alist_lookup_insert_self] at hl
        cases hl
        refine ⟨subs, rfl, ?_⟩
        exact (List.mem_filter.mp hmem).1
  · rw [droom_other m s r k hk] at hl
    exact ⟨subs2, hl, hmem⟩

theorem submap_at_refl (sid : String) (l : List (String × List String)) :
    submap_at sid l l :=
  fun _ subs2 hl hm => ⟨subs2, hl, hm⟩

theorem submap_at_trans {sid : String}
    {l3 l2 l1 : List (String × List String)} (h32 : submap_at sid l3 l2)
    (h21 : submap_at sid l2 l1) : submap_at sid l3 l1 := by
  intro k subs3 hl hm
  obtain ⟨subs2, hl2, hm2⟩ := h32 k subs3 hl hm
  exact h21 k subs2 hl2 hm2

theorem fold_unsub_rooms (sid : String) (l : List String) (acc : WSManager) :
    (l.foldl (fun a t => a.unsubscribe_task sid t) acc).room_subscribers =
      acc.room_subscribers := by
  induction l generalizing acc with
  | nil => rfl
  | cons t ts ih =>
      rw [List.foldl_cons, ih, unsub_room_subscribers]

theorem fold_unsub_heartbeats (sid : String) (l : List String)
    (acc : WSManager) :
    (l.foldl (fun a t => a.unsubscribe_task sid t) acc).client_heartbeats =
      acc.client_heartbeats := by
  induction l generalizing acc with
  | nil => rfl
  | cons t ts ih =>
      rw [List.foldl_cons, ih, unsub_client_heartbeats]

theorem fold_unsub_connected_none (sid : String) (l : List String)
    (acc : WSManager)
    (h : alist_lookup acc.connected_clients sid = none) :
    alist_lookup (l.foldl (fun a t => a.unsubscribe_task sid t)
      acc).connected_clients sid = none := by
  induction l generalizing acc with
  | nil => exact h
  | cons t ts ih =>
      rw [List.foldl_cons]
      exact ih _ (by rw [unsub_connected_none acc t sid h]; exact h)

theorem fold_unsub_connected_other (sid s : String) (l : List String)
    (acc : WSManager) (hne : sid ≠ s) :
    alist_lookup (l.foldl (fun a t => a.unsubscribe_task s t)
      acc).connected_clients sid =
      alist_lookup acc.connected_clients sid := by
  induction l generalizing acc with
  | nil => rfl
  | cons t ts ih =>
      rw [List.foldl_cons, ih, unsub_connected_other _ _ _ _ hne]

theorem fold_unsub_submap (sid s : String) (l : List String)
    (acc : WSManager) :
    submap_at sid ((l.foldl (fun a t => a.unsubscribe_task s t)
      acc).task_subscribers) acc.task_subscribers := by
  induction l generalizing acc with
  | nil => exact submap_at_refl sid _
  | cons t ts ih =>
      rw [List.foldl_cons]
      refine submap_at_trans (ih _) ?_
      rw [unsub_tasks]
      exact subs_discard_submap _ _ _ _

theorem fold_unsub_clears (sid : String) (l : List String) (acc : WSManager)
    (hconn : alist_lookup acc.connected_clients sid = none)
    (hsync : ∀ t subs, alist_lookup acc.task_subscribers t = some subs →
      sid ∈ subs → t ∈ l) :
    ∀ t subs, alist_lookup (l.foldl (fun a t2 => a.unsubscribe_task sid t2)
      acc).task_subscribers t = some subs → sid ∉ subs := by
  induction l generalizing acc with
  | nil =>
      intro t subs hl hm
      exact absurd (hsync t subs hl hm) (List.not_mem_nil t)
  | cons t ts ih =>
      rw [List.foldl_cons]
      refine ih _ ?_ ?_
      · rw [unsub_connected_none acc t sid hconn]
        exact hconn
      · intro t2 subs2 hl hm
        rw [unsub_tasks] at hl
        by_cases ht : t2 = t
        · subst ht
          exact absurd hm (subs_discard_no_self _ _ _ _ hl)
        · rw [subs_discard_other _ _ _ _ ht] at hl
          have := hsync t2 subs2 hl hm
          rcases List.mem_cons.mp this with h1 | h2
          · exact absurd h1 ht
          · exact h2

theorem fold_droom_connected (s : String) (l : List String)
    (acc : WSManager) :
    (l.foldl (fun a r => a.discard_room_member s r) acc).connected_clients =
      acc.connected_clients := by
  induction l generalizing acc with
  | nil => rfl
  | cons r rs ih =>
      rw [List.foldl_cons, ih, droom_connected]

theorem fold_droom_heartbeats (s : String) (l : List String)
    (acc : WSManager) :
    (l.foldl (fun a r => a.discard_room_member s r) acc).client_heartbeats =
      acc.client_heartbeats := by
  induction l generalizing acc with
  | nil => rfl
  | cons r rs ih =>
      rw [List.foldl_cons, ih, droom_heartbeats]

theorem fold_droom_tasks (s : String) (l : List String) (acc : WSManager) :
    (l.foldl (fun a r => a.discard_room_member s r) acc).task_subscribers =
      acc.task_subscribers := by
  induction l generalizing acc with
  | nil => rfl
  | cons r rs ih =>
      rw [List.foldl_cons, ih, droom_tasks]

theorem fold_droom_submap (sid s : String) (l : List String)
    (acc : WSManager) :
    submap_at sid ((l.foldl (fun a r => a.discard_room_member s r)
      acc).room_subscribers) acc.room_subscribers := by
  induction l generalizing acc with
  | nil => exact submap_at_refl sid _
  | cons r rs ih =>
      rw [List.foldl_cons]
      exact submap_at_trans (ih _) (droom_submap _ _ _ _)

theorem fold_droom_clears (sid : String) (l : List String) (acc : WSManager)
    (hsync : ∀ r subs, alist_lookup acc.room_subscribers r = some subs →
      sid ∈ subs → r ∈ l) :
    ∀ r subs, alist_lookup (l.foldl (fun a r2 => a.discard_room_member sid r2)
      acc).room_subscribers r = some subs → sid ∉ subs := by
  induction l generalizing acc with
  | nil =>
      intro r subs hl hm
      exact absurd (hsync r subs hl hm) (List.not_mem_nil r)
  | cons r rs ih =>
      rw [List.foldl_cons]
      refine ih _ ?_
      intro r2 subs2 hl hm
      by_cases hr : r2 = r
      · subst hr
        exact absurd hm (droom_no_self _ _ _ _ hl)
      · rw [droom_other _ _ _ _ hr] at hl
        have := hsync r2 subs2 hl hm
        rcases List.mem_cons.mp this with h1 | h2
        · exact absurd h1 hr
        · exact h2

theorem cleanup_one_clears (m : WSManager) (sid : String)
    (info : WSClientInfo)
    (hinfo : alist_lookup m.connected_clients sid = some info)
    (hsyncT : ∀ t subs, alist_lookup m.task_subscribers t = some subs →
      sid ∈ subs → t ∈ info.subscribed_tasks)
    (hsyncR : ∀ r subs, alist_lookup m.room_subscribers r = some subs →
      sid ∈ subs → r ∈ info.subscribed_rooms) :
    ws_absent (m.cleanup_one sid) sid := by
  unfold ws_absent WSManager.cleanup_one
  simp only [hinfo, Option.getD_some]
  refine ⟨?_, ?_, ?_, ?_⟩
  · rw [fold_droom_connected]
    exact fold_unsub_connected_none sid _ _ (alist_lookup_erase_self _ _)
  · exact alist_lookup_erase_self _ _
  · intro t subs hl
    rw [fold_droom_tasks] at hl
    exact fold_unsub_clears sid info.subscribed_tasks
      { m with connected_clients := alist_erase m.connected_clients sid }
      (alist_lookup_erase_self _ _) hsyncT t subs hl
  · intro r subs hl
    refine fold_droom_clears sid info.subscribed_rooms _ ?_ r subs hl
    intro r2 subs2 h2 hm2
    rw [fold_unsub_rooms] at h2
    exact hsyncR r2 subs2 h2 hm2

theorem cleanup_one_sync_preserved (m : WSManager) (s sid : String)
    (info : WSClientInfo) (hne : s ≠ sid) (h : ws_synced m sid info) :
    ws_synced (m.cleanup_one s) sid info := by
  obtain ⟨hconn, hT, hR⟩ := h
  unfold ws_synced WSManager.cleanup_one
  refine ⟨?_, ?_, ?_⟩
  · rw [fold_droom_connected,
      fold_unsub_connected_other sid s _ _ (Ne.symm hne),
      alist_lookup_erase_ne _ _ _ (Ne.symm hne)]
    exact hconn
  · intro t subs hl hm
    rw [fold_droom_tasks] at hl
    obtain ⟨subs0, hl0, hm0⟩ := fold_unsub_submap sid s _ _ t subs hl hm
    exact hT t subs0 hl0 hm0
  · intro r subs hl hm
    obtain ⟨subs1, hl1, hm1⟩ := fold_droom_submap sid s _ _ r subs hl hm
    rw [fold_unsub_rooms] at hl1
    exact hR r subs1 hl1 hm1

theorem cleanup_one_absent_preserved (m : WSManager) (s sid : String)
    (hne : s ≠ sid) (h : ws_absent m sid) : ws_absent (m.cleanup_one s) sid := by
  obtain ⟨hc, hh, hT, hR⟩ := h
  unfold ws_absent WSManager.cleanup_one
  refine ⟨?_, ?_, ?_, ?_⟩
  · rw [fold_droom_connected,
      fold_unsub_connected_other sid s _ _ (Ne.symm hne),
      alist_lookup_erase_ne _ _ _ (Ne.symm hne)]
    exact hc
  · rw [alist_lookup_erase_ne _ _ _ (Ne.symm hne), fold_droom_heartbeats,
      fold_unsub_heartbeats]
    exact hh
  · intro t subs hl hm
    rw [fold_droom_tasks] at hl
    obtain ⟨subs0, hl0, hm0⟩ := fold_unsub_submap sid s _ _ t subs hl hm
    exact absurd hm0 (hT t subs0 hl0)
  · intro r subs hl hm
    obtain ⟨subs1, hl1, hm1⟩ := fold_droom_submap sid s _ _ r subs hl hm
    rw [fold_unsub_rooms] at hl1
    exact absurd hm1 (hR r subs1 hl1)

/-- C8: for a connection whose heartbeat is more than the 60-second stale
threshold old, one liveness sweep removes its session id from the
connected-client map, the heartbeat map, and every task- and
room-subscriber set (given the handler invariant that its client record
mirrors its memberships, and that heartbeat keys are unique); afterwards no
_send_task_status call for any task and any result store attempts a
delivery to it. -/
theorem C8_stale_connection_swept (m : WSManager) (now : Int) (sid : String)
    (info : WSClientInfo) (hb : Int)
    (hhb : alist_lookup m.client_heartbeats sid = some hb)
    (hstale : 60 < now - hb)
    (hnodup : (m.client_heartbeats.map Prod.fst).Nodup)
    (hsync : ws_synced m sid info) :
    ws_absent (m.cleanup_stale_connections now) sid ∧
    ∀ results tid,
      sid ∉ ((m.cleanup_stale_connections now).send_task_status
        results tid).2 := by
  have habs : ws_absent (m.cleanup_stale_connections now) sid := by
    unfold WSManager.cleanup_stale_connections
    set stale := (m.client_heartbeats.filter
      (fun p => decide (60 < now - p.2))).map Prod.fst with hstaledef
    have hmem : sid ∈ stale := by
      have hmem0 : (sid, hb) ∈ m.client_heartbeats := alist_lookup_mem hhb
      have hmem1 : (sid, hb) ∈ m.client_heartbeats.filter
          (fun p => decide (60 < now - p.2)) := by
        rw [List.mem_filter]
        exact ⟨hmem0, by simp [hstale]⟩
      rw [hstaledef]
      exact List.mem_map.mpr ⟨(sid, hb), hmem1, rfl⟩
    have hnd : stale.Nodup := by
      rw [hstaledef]
      exact List.Nodup.sublist
        (List.Sublist.map Prod.fst (List.filter_sublist _)) hnodup
    obtain ⟨l1, l2, hsplit⟩ := List.append_of_mem hmem
    have hnm : sid ∉ l1 ∧ sid ∉ l2 := by
      rw [hsplit, List.nodup_middle] at hnd
      have hni := (List.nodup_cons.mp hnd).1
      constructor
      · intro hmem1
        exact hni (List.mem_append.mpr (Or.inl hmem1))
      · intro hmem2
        exact hni (List.mem_append.mpr (Or.inr hmem2))
    rw [hsplit, List.foldl_append, List.foldl_cons]
    have hA : ws_synced (l1.foldl WSManager.cleanup_one m) sid info :=
      foldl_preserve (fun x => ws_synced x sid info) WSManager.cleanup_one l1
        (fun acc s hs hp => cleanup_one_sync_preserved acc s sid info
          (fun he => hnm.1 (he ▸ hs)) hp) m hsync
    have hB : ws_absent
        ((l1.foldl WSManager.cleanup_one m).cleanup_one sid) sid :=
      cleanup_one_clears _ sid info hA.1 hA.2.1 hA.2.2
    exact foldl_preserve (fun x => ws_absent x sid) WSManager.cleanup_one l2
      (fun acc s hs hp => cleanup_one_absent_preserved acc s sid
        (fun he => hnm.2 (he ▸ hs)) hp) _ hB
  refine ⟨habs, ?_⟩
  intro results tid
  unfold WSManager.send_task_status
  cases hres : alist_lookup results tid with
  | none => simp
  | some tr =>
      cases hsubs : alist_lookup
          (m.cleanup_stale_connections now).task_subscribers tid with
      | none => simp [hsubs]
      | some subs =>
          simp only [hsubs]
          exact habs.2.2.1 tid subs hsubs

theorem C8_stale_connection_swept_witness :
    ws_absent (c8_hub.cleanup_stale_connections 100) "s1" ∧
    ∀ results tid,
      "s1" ∉ ((c8_hub.cleanup_stale_connections 100).send_task_status
        results tid).2 := by
  refine C8_stale_connection_swept c8_hub 100 "s1" c8_info 0 (by decide)
    (by decide) (by decide) ⟨by decide, ?_, ?_⟩
  · intro t subs h hm
    by_cases ht : t = "t1"
    · subst ht
      decide
    · have ht2 : ¬(("t1" : String) = t) := fun hh => ht hh.symm
      simp [c8_hub, alist_lookup, ht2] at h
  · intro r subs h hm
    by_cases hr : r = "r1"
    · subst hr
      decide
    · have hr2 : ¬(("r1" : String) = r) := fun hh => hr hh.symm
      simp [c8_hub, alist_lookup, hr2] at h
